import Mathlib

/-!
Shallow embedding of the cold-start analytics engine of the
lambda-performance-mcp-nodejs repository (the `ColdStartTracker` class and the
helper methods of `LambdaAnalyzer`), together with theorems settling the frozen
claims about it.

Modelling conventions:
* JavaScript numbers are modelled as exact rationals (`ℚ`); the integer counts
  and epoch-millisecond timestamps that the analysed code manipulates are
  modelled as `ℕ`.  `Math.round` is `⌊q + 1/2⌋` (JS rounds half toward +∞).
* JavaScript's default `Array.prototype.sort()` (used by `identifyTriggers` and
  `checkDeploymentPattern` on numeric timestamps) compares the *decimal string
  representations* of the numbers; this is modelled faithfully by `jsNumStrLe`
  below, built on the decimal-digit expansion `jsDigits`.
* Fallible telemetry fetches are modelled by `Except TelemetryError`; a source
  level `try { ... } catch { ... }` around a fetch becomes a `match` on that
  `Except`.  All other source code is total, so a `catch` around total code is
  dead and is recorded as such in a comment.
* `NaN` produced by JavaScript's `0 / 0` (average over an empty gap list) is
  modelled by `Option ℚ` with `none` for `NaN`; every `NaN > c` comparison is
  `false`, as in JS.
-/

/-- JavaScript `Math.round`: rounds half toward positive infinity. -/
def jsRound (q : ℚ) : ℤ := ⌊q + 1/2⌋

/-- Most-significant-first decimal digit expansion, with explicit fuel so that
the definition is structural and kernel-reducible.  `jsDigitsGo fuel n` is the
digit list of `n` provided `n ≤ fuel`. -/
def jsDigitsGo : ℕ → ℕ → List ℕ
  | 0, n => [n]
  | fuel + 1, n => if n < 10 then [n] else jsDigitsGo fuel (n / 10) ++ [n % 10]

/-- Decimal digits of a natural number, most significant first; this is the
model of JavaScript's `Number.prototype.toString()` for the (integral,
non-negative) timestamps handled by the analysed code. -/
def jsDigits (n : ℕ) : List ℕ := jsDigitsGo n n

/-- Lexicographic comparison of digit strings; a strict prefix is smaller.
For decimal digit lists this is exactly JavaScript's string `≤` on the decimal
numerals (digit characters are consecutive in ASCII). -/
def digitsLe : List ℕ → List ℕ → Bool
  | [], _ => true
  | _ :: _, [] => false
  | a :: as, b :: bs => if a < b then true else if b < a then false else digitsLe as bs

/-- The comparison used by JavaScript's default `Array.prototype.sort()` on
numbers: compare their decimal string representations. -/
def jsNumStrLe (a b : ℕ) : Bool := digitsLe (jsDigits a) (jsDigits b)

/-- Model of `array.sort()` (default comparator) on a list of non-negative
integral numbers: sort by decimal string representation.  Equal keys are equal
numbers, so any correct sorting algorithm yields the JS result. -/
def jsSortNums (l : List ℕ) : List ℕ :=
  List.insertionSort (fun a b => jsNumStrLe a b = true) l

/-- Model of `array.sort((a, b) => a - b)`: numeric ascending sort. -/
def jsSortRat (l : List ℚ) : List ℚ := List.insertionSort (· ≤ ·) l

/-- Value of a most-significant-first digit list. -/
def digitsVal : List ℕ → ℕ
  | [] => 0
  | d :: ds => d * 10 ^ ds.length + digitsVal ds

/-- One raw CloudWatch log event as consumed by the tracker: timestamp (epoch
milliseconds), message text, log stream name. -/
structure LogEvent where
  timestamp : ℕ
  message : String
  logStreamName : String
deriving DecidableEq, Repr

/-- Failure of a telemetry fetch (`logsClient.send` rejecting): permissions,
network, throttling.  The distinction is irrelevant to the analysed code, which
only catches and logs. -/
inductive TelemetryError where
  | accessDenied
  | networkError
  | throttled
deriving DecidableEq, Repr

/-- The per-cold-start record assembled by `extractColdStartData`.  The source
also stores `logStream` and the raw associated `events`; numeric fields parsed
from log text are `Option` (JS `null` until a matching line is found). -/
structure ColdStartData where
  requestId : String
  timestamp : ℕ
  logStream : String
  initDuration : Option ℚ
  totalDuration : Option ℚ
  memoryUsed : Option ℕ
  memoryAllocated : Option ℕ
  billedDuration : Option ℚ
  events : List LogEvent
deriving DecidableEq, Repr

/-- The `percentiles` object of `generateStatistics` (values are
`Math.round`ed, hence integers). -/
structure Percentiles where
  p50 : ℤ
  p90 : ℤ
  p95 : ℤ
  p99 : ℤ
deriving DecidableEq, Repr

/-- The five fixed duration buckets of `createDurationDistribution`. -/
structure Distribution where
  b0to500 : ℕ
  b500to1000 : ℕ
  b1000to2000 : ℕ
  b2000to5000 : ℕ
  b5000plus : ℕ
deriving DecidableEq, Repr

/-- Result of `generateStatistics`.  In the empty case the source returns the
empty JS object `{}` for `distribution`; that case is modelled by `none`. -/
structure Statistics where
  count : ℕ
  percentiles : Percentiles
  distribution : Option Distribution
deriving DecidableEq, Repr

/-- Result of `analyzeColdStartPatterns`.  `avgDuration`, `maxDuration` and
`minDuration` are `Math.round`ed in the source, hence integers.  The source's
`getEmptyAnalysis` object carries no `hourlyDistribution` key; the model uses
`[]` there. -/
structure Analysis where
  avgDuration : ℤ
  maxDuration : ℤ
  minDuration : ℤ
  peakHours : List String
  frequency : String
  triggers : List String
  patterns : List String
  statistics : Statistics
  hourlyDistribution : List ℕ
deriving DecidableEq, Repr

/-- Result object of `ColdStartTracker.trackColdStarts`.  The source also
returns a `timeline` field computed from the wall clock (`Date.now()`) and
locale-formatted time strings (`toLocaleTimeString`); being real-time and
locale dependent it is outside this deterministic model and no claim concerns
it. -/
structure TrackResult where
  total : ℕ
  rate : ℚ
  avgDuration : ℤ
  maxDuration : ℤ
  minDuration : ℤ
  peakHours : List String
  frequency : String
  triggers : List String
  recommendations : List String
  patterns : List String
  statistics : Statistics
deriving DecidableEq, Repr

namespace ColdStartTracker

/-- Source `parseTimeRange`: table lookup with `|| ranges['24h']` fallback (all
table values are truthy, so the fallback fires exactly on unknown tokens). -/
def parseTimeRange (timeRange : String) : ℕ :=
  if timeRange = "1h" then 60 * 60 * 1000
  else if timeRange = "6h" then 6 * 60 * 60 * 1000
  else if timeRange = "24h" then 24 * 60 * 60 * 1000
  else if timeRange = "7d" then 7 * 24 * 60 * 60 * 1000
  else 24 * 60 * 60 * 1000

/-- Source `calculateColdStartRate`: `0` when `totalInvocations === 0`, else
`Math.round((coldStarts / totalInvocations) * 100 * 100) / 100`. -/
def calculateColdStartRate (coldStarts totalInvocations : ℕ) : ℚ :=
  if totalInvocations = 0 then 0
  else (jsRound ((coldStarts / totalInvocations : ℚ) * 100 * 100) : ℚ) / 100

/-- Character class of the regex fragment `[\w-]` (no unicode flag): ASCII
letters, digits, underscore, hyphen. -/
def wordDashChar (c : Char) : Bool :=
  ('a' ≤ c && c ≤ 'z') || ('A' ≤ c && c ≤ 'Z') || ('0' ≤ c && c ≤ '9') || c = '_' || c = '-'

/-- Match a literal character sequence at the head of the input; on success
return the remainder. -/
def matchLiteral : List Char → List Char → Option (List Char)
  | [], s => some s
  | _ :: _, [] => none
  | p :: ps, c :: cs => if c = p then matchLiteral ps cs else none

/-- Try to match the regex `RequestId: ([\w-]+)` anchored at the head of the
input; on success return the (greedy) capture. -/
def requestIdAt (s : List Char) : Option (List Char) :=
  match matchLiteral "RequestId: ".toList s with
  | none => none
  | some rest =>
    match rest with
    | [] => none
    | c :: _ => if wordDashChar c then some (rest.takeWhile wordDashChar) else none

/-- Leftmost match of `RequestId: ([\w-]+)` anywhere in the input (JS
`String.prototype.match` semantics for a non-global regex). -/
def findRequestId : List Char → Option (List Char)
  | [] => none
  | c :: cs =>
    match requestIdAt (c :: cs) with
    | some capture => some capture
    | none => findRequestId cs

/-- Source `extractRequestId`: `message.match(/RequestId: ([\w-]+)/)`, first
capture group, `null` when the pattern does not occur. -/
def extractRequestId (message : String) : Option String :=
  (findRequestId message.toList).map (fun cs => String.mk cs)

/-- Source `calculatePercentile`:
`index = Math.ceil((percentile / 100) * sortedArray.length) - 1`, then
`Math.round(sortedArray[Math.max(0, index)])`.  The source clamps only from
below; for the percentiles the code uses (≤ 100) the index never exceeds the
last position, which the out-of-range default `0` of `getD` makes visible. -/
def calculatePercentile (sortedArray : List ℚ) (percentile : ℕ) : ℤ :=
  let index : ℤ := ⌈(percentile : ℚ) / 100 * sortedArray.length⌉ - 1
  jsRound (sortedArray.getD (max 0 index).toNat 0)

/-- Source `createDurationDistribution`: fold every duration through the
if/else-if chain with inclusive upper bounds. -/
def createDurationDistribution (durations : List ℚ) : Distribution :=
  durations.foldl
    (fun b duration =>
      if duration ≤ 500 then { b with b0to500 := b.b0to500 + 1 }
      else if duration ≤ 1000 then { b with b500to1000 := b.b500to1000 + 1 }
      else if duration ≤ 2000 then { b with b1000to2000 := b.b1000to2000 + 1 }
      else if duration ≤ 5000 then { b with b2000to5000 := b.b2000to5000 + 1 }
      else { b with b5000plus := b.b5000plus + 1 })
    ⟨0, 0, 0, 0, 0⟩

/-- Source `determineColdStartFrequency` (the `timeRange` parameter is unused
in the source body as well). -/
def determineColdStartFrequency (coldStartEvents : List ColdStartData)
    (allInvocations : List LogEvent) (_timeRange : String) : String :=
  let coldStartRate := calculateColdStartRate coldStartEvents.length allInvocations.length
  if coldStartRate > 50 then "Very High (>50%)"
  else if coldStartRate > 25 then "High (25-50%)"
  else if coldStartRate > 10 then "Moderate (10-25%)"
  else if coldStartRate > 5 then "Low (5-10%)"
  else "Very Low (<5%)"

/-- Source `calculateVariance`: population variance, mean of squared
deviations. -/
def calculateVariance (values : List ℚ) : ℚ :=
  let mean := values.sum / values.length
  (values.map (fun val => (val - mean) ^ 2)).sum / values.length

/-- JS `Math.max(...list)` for the non-empty lists the source guards for. -/
def jsMaxList : List ℚ → ℚ
  | [] => 0
  | x :: xs => xs.foldl max x

/-- JS `Math.min(...list)` for the non-empty lists the source guards for. -/
def jsMinList : List ℚ → ℚ
  | [] => 0
  | x :: xs => xs.foldl min x

/-- JS `Math.max(...list)` on naturals (memory sizes). -/
def jsMaxListNat : List ℕ → ℕ
  | [] => 0
  | x :: xs => xs.foldl max x

end ColdStartTracker

namespace LambdaAnalyzer

/-- Source `LambdaAnalyzer.parseTimeRange`: same table plus `'30d'`, same
`|| ranges['24h']` fallback. -/
def parseTimeRange (timeRange : String) : ℕ :=
  if timeRange = "1h" then 60 * 60 * 1000
  else if timeRange = "6h" then 6 * 60 * 60 * 1000
  else if timeRange = "24h" then 24 * 60 * 60 * 1000
  else if timeRange = "7d" then 7 * 24 * 60 * 60 * 1000
  else if timeRange = "30d" then 30 * 24 * 60 * 60 * 1000
  else 24 * 60 * 60 * 1000

end LambdaAnalyzer

namespace ColdStartTracker

/-- JS `hay.includes(needle)` (substring containment). -/
def hasSubstring (needle : List Char) : List Char → Bool
  | [] => match matchLiteral needle [] with
    | some _ => true
    | none => false
  | c :: cs => match matchLiteral needle (c :: cs) with
    | some _ => true
    | none => hasSubstring needle cs

/-- JS `String.prototype.includes`. -/
def jsIncludes (hay needle : String) : Bool := hasSubstring needle.toList hay.toList

/-- Source `analyzeHourlyDistribution`: a 24-slot array, incrementing the slot
of `new Date(event.timestamp).getHours()`.  The local-time hour extraction is
timezone dependent and is therefore a parameter `hourOf` of the model; every
claim is independent of it. -/
def analyzeHourlyDistribution (hourOf : ℕ → ℕ) (coldStartEvents : List ColdStartData) :
    List ℕ :=
  coldStartEvents.foldl
    (fun distribution event =>
      let hour := hourOf event.timestamp
      distribution.set hour (distribution.getD hour 0 + 1))
    (List.replicate 24 0)

/-- Format used by `findPeakHours`: `padStart(2, '0')` then `":00"`. -/
def formatHour (hour : ℕ) : String :=
  (if hour < 10 then "0" ++ toString hour else toString hour) ++ ":00"

/-- Source `findPeakHours`: pair counts with hours, keep positive counts, sort
by count descending (JS stable sort; original order is ascending hour, so ties
resolve to the lower hour), take 3, format. -/
def findPeakHours (hourlyDistribution : List ℕ) : List String :=
  let hoursWithCounts :=
    hourlyDistribution.enum.filter (fun item => item.2 > 0)
  let sorted := List.insertionSort
    (fun a b : ℕ × ℕ => b.2 < a.2 ∨ (a.2 = b.2 ∧ a.1 ≤ b.1)) hoursWithCounts
  (sorted.take 3).map (fun item => formatHour item.1)

/-- Source `checkScalingPattern`: more than 10 cold starts. -/
def checkScalingPattern (coldStartEvents : List ColdStartData) : Bool :=
  decide (coldStartEvents.length > 10)

/-- The `for (let i = 1; ...) if (timestamps[i] - timestamps[i-1] < 60000) clusters++`
loop of `checkDeploymentPattern` (JS subtraction can be negative, hence `ℤ`). -/
def countClusters : List ℕ → ℕ
  | a :: b :: rest => (if (b : ℤ) - (a : ℤ) < 60000 then 1 else 0) + countClusters (b :: rest)
  | _ => 0

/-- Source `checkDeploymentPattern`: fewer than 3 events → `false`; otherwise
sort the timestamps with the default (string) sort and report whether the
count of consecutive gaps under one minute exceeds `timestamps.length * 0.3`. -/
def checkDeploymentPattern (coldStartEvents : List ColdStartData) : Bool :=
  if coldStartEvents.length < 3 then false
  else
    let timestamps := jsSortNums (coldStartEvents.map (fun e => e.timestamp))
    let clusters := countClusters timestamps
    decide ((clusters : ℚ) > (timestamps.length : ℚ) * (3 / 10))

/-- The list of JS gaps `invocationTimes[i] - invocationTimes[i-1]`. -/
def adjacentGaps : List ℕ → List ℤ
  | a :: b :: rest => ((b : ℤ) - (a : ℤ)) :: adjacentGaps (b :: rest)
  | _ => []

/-- JS `x > c` where `x` may be `NaN` (modelled `none`): `NaN` comparisons are
false. -/
def jsGtOpt : Option ℚ → ℚ → Bool
  | none, _ => false
  | some q, c => decide (q > c)

/-- Source `identifyTriggers`: sort all invocation timestamps (default sort),
average the consecutive gaps (`0 / 0 = NaN` when fewer than two invocations),
test the two idle thresholds, the deployment pattern, and the scaling pattern;
fall back to the default trigger when nothing fired. -/
def identifyTriggers (coldStartEvents : List ColdStartData)
    (allInvocations : List LogEvent) : List String :=
  let invocationTimes := jsSortNums (allInvocations.map (fun inv => inv.timestamp))
  let gaps := adjacentGaps invocationTimes
  let avgGap : Option ℚ :=
    if gaps.length = 0 then none else some ((gaps.sum : ℚ) / (gaps.length : ℚ))
  let triggers : List String :=
    (if jsGtOpt avgGap (15 * 60 * 1000) then ["Long idle periods (>15 minutes)"] else []) ++
    (if jsGtOpt avgGap (5 * 60 * 1000) then ["Moderate idle periods (5-15 minutes)"] else []) ++
    (if checkDeploymentPattern coldStartEvents then ["Function deployments/updates"] else []) ++
    (if checkScalingPattern coldStartEvents then ["Auto-scaling events"] else [])
  if triggers.length > 0 then triggers else ["Normal Lambda lifecycle"]

/-- Source `analyzeTimePatterns`: hours of all cold starts, deduplicated with
insertion order (`[...new Set(hours)]`), reported when at most 3 distinct. -/
def analyzeTimePatterns (hourOf : ℕ → ℕ) (coldStartEvents : List ColdStartData) :
    Option String :=
  let hours := coldStartEvents.map (fun event => hourOf event.timestamp)
  let uniqueHours := hours.eraseDups
  if uniqueHours.length ≤ 3 then
    some ("Cold starts concentrated in " ++ toString uniqueHours.length ++ " hour(s): " ++
      String.intercalate ", " (uniqueHours.map toString))
  else none

/-- Source `analyzeDurationPatterns`: variance thresholds over the non-null
init durations. -/
def analyzeDurationPatterns (coldStartEvents : List ColdStartData) : Option String :=
  let durations := (coldStartEvents.map (fun e => e.initDuration)).filterMap id
  if durations.length = 0 then none
  else
    let variance := calculateVariance durations
    if variance < 100 then some "Consistent cold start durations"
    else if variance > 1000 then
      some "Highly variable cold start durations - investigate initialization code"
    else some "Moderate variation in cold start durations"

/-- Source `analyzeMemoryPatterns`: compare max memory use against 1.5× the
average. -/
def analyzeMemoryPatterns (coldStartEvents : List ColdStartData) : Option String :=
  let memoryUsages : List ℕ := (coldStartEvents.map (fun e => e.memoryUsed)).filterMap id
  if memoryUsages.length = 0 then none
  else
    let avgMemory : ℚ := ((memoryUsages.map (fun m => (m : ℚ))).sum) / memoryUsages.length
    let maxMemory := jsMaxListNat memoryUsages
    if (maxMemory : ℚ) > avgMemory * (3 / 2) then
      some "Variable memory usage during cold starts"
    else some "Consistent memory usage pattern"

/-- Source `identifyPatterns`: collect whichever of the three pattern
analysers produced a string. -/
def identifyPatterns (hourOf : ℕ → ℕ) (coldStartEvents : List ColdStartData)
    (_timeRange : String) : List String :=
  (match analyzeTimePatterns hourOf coldStartEvents with
    | some p => [p]
    | none => []) ++
  (match analyzeDurationPatterns coldStartEvents with
    | some p => [p]
    | none => []) ++
  (match analyzeMemoryPatterns coldStartEvents with
    | some p => [p]
    | none => [])

/-- Source `generateStatistics`: zero statistics (with the empty `{}`
distribution, modelled `none`) for an empty duration set, else the four
nearest-rank percentiles of the numerically sorted durations and the bucket
distribution.  Note `count` is the number of cold-start events, not of
durations. -/
def generateStatistics (coldStartEvents : List ColdStartData) (durations : List ℚ) :
    Statistics :=
  if durations.length = 0 then ⟨0, ⟨0, 0, 0, 0⟩, none⟩
  else
    let sortedDurations := jsSortRat durations
    { count := coldStartEvents.length
      percentiles :=
        { p50 := calculatePercentile sortedDurations 50
          p90 := calculatePercentile sortedDurations 90
          p95 := calculatePercentile sortedDurations 95
          p99 := calculatePercentile sortedDurations 99 }
      distribution := some (createDurationDistribution durations) }

/-- Source `getEmptyAnalysis` (no `hourlyDistribution` key in the source
object; `[]` here). -/
def getEmptyAnalysis : Analysis :=
  { avgDuration := 0
    maxDuration := 0
    minDuration := 0
    peakHours := []
    frequency := "No cold starts detected"
    triggers := []
    patterns := []
    statistics := ⟨0, ⟨0, 0, 0, 0⟩, none⟩
    hourlyDistribution := [] }

/-- Source `analyzeColdStartPatterns`. -/
def analyzeColdStartPatterns (hourOf : ℕ → ℕ) (coldStartEvents : List ColdStartData)
    (allInvocations : List LogEvent) (timeRange : String) : Analysis :=
  if coldStartEvents.length = 0 then getEmptyAnalysis
  else
    let durations := (coldStartEvents.map (fun event => event.initDuration)).filterMap id
    let avgDuration : ℚ :=
      if durations.length > 0 then durations.sum / (durations.length : ℚ) else 0
    let maxDuration : ℚ := if durations.length > 0 then jsMaxList durations else 0
    let minDuration : ℚ := if durations.length > 0 then jsMinList durations else 0
    let hourlyDistribution := analyzeHourlyDistribution hourOf coldStartEvents
    { avgDuration := jsRound avgDuration
      maxDuration := jsRound maxDuration
      minDuration := jsRound minDuration
      peakHours := findPeakHours hourlyDistribution
      frequency := determineColdStartFrequency coldStartEvents allInvocations timeRange
      triggers := identifyTriggers coldStartEvents allInvocations
      patterns := identifyPatterns hourOf coldStartEvents timeRange
      statistics := generateStatistics coldStartEvents durations
      hourlyDistribution := hourlyDistribution }

/-- Source `generateRecommendations`.  `frequency.includes('High')` is a
substring test (it also matches `"Very High (>50%)"`), while
`triggers.includes('Long idle periods')` is exact `Array.includes`
membership (never true: the trigger strings carry a parenthesised suffix). -/
def generateRecommendations (analysis : Analysis) : List String :=
  (if jsIncludes analysis.frequency "High" || jsIncludes analysis.frequency "Very High" then
    ["Consider implementing Provisioned Concurrency to reduce cold starts",
     "Optimize function initialization code to reduce cold start duration"]
  else []) ++
  (if analysis.avgDuration > 2000 then
    ["Reduce deployment package size by removing unused dependencies",
     "Use Lambda layers for shared libraries and dependencies",
     "Optimize initialization code - move heavy operations outside the handler"]
  else []) ++
  (if analysis.peakHours.length > 0 then
    ["Consider scheduled provisioned concurrency during peak hours: " ++
      String.intercalate ", " analysis.peakHours]
  else []) ++
  (if analysis.triggers.contains "Long idle periods" then
    ["Implement keep-warm strategies or use EventBridge scheduled events"]
  else []) ++
  ["Consider using ARM-based Graviton2 processors for better price-performance",
   "Ensure you're using the latest runtime version for optimal performance"]

/-- Source `getEmptyResult` (the result substituted by the top-level `catch`
of `trackColdStarts`; its `timeline: []` field is outside the model). -/
def getEmptyResult : TrackResult :=
  { total := 0
    rate := 0
    avgDuration := 0
    maxDuration := 0
    minDuration := 0
    peakHours := []
    frequency := "No data"
    triggers := []
    recommendations := ["Unable to analyze cold starts - check CloudWatch Logs permissions"]
    patterns := []
    statistics := ⟨0, ⟨0, 0, 0, 0⟩, none⟩ }

/-- Report line data extracted by the `report` regex of `extractColdStartData`:
total duration, billed duration, memory size, max memory used. -/
structure ReportMatch where
  totalDuration : ℚ
  billedDuration : ℚ
  memoryAllocated : ℕ
  memoryUsed : ℕ
deriving DecidableEq, Repr

/-- Source `extractColdStartData`: `null` when the INIT_START message carries
no `RequestId: ...` token; otherwise fold the related events (fetched by
`getRelatedEvents`, a parameter here) over the record, overwriting
`initDuration` and the REPORT fields on each regex match (last-write-wins).
The numeric regex matchers (`INIT_DURATION: ([\d.]+) ms` with `parseFloat`,
and the REPORT line shape) are parameters `matchInitDuration` / `matchReport`
of the model; no claim depends on their internals. -/
def extractColdStartData (matchInitDuration : String → Option ℚ)
    (matchReport : String → Option ReportMatch)
    (relatedEvents : LogEvent → List LogEvent) (initEvent : LogEvent) :
    Option ColdStartData :=
  match extractRequestId initEvent.message with
  | none => none
  | some requestId =>
    let start : ColdStartData :=
      { requestId := requestId
        timestamp := initEvent.timestamp
        logStream := initEvent.logStreamName
        initDuration := none
        totalDuration := none
        memoryUsed := none
        memoryAllocated := none
        billedDuration := none
        events := [initEvent] }
    some ((relatedEvents initEvent).foldl
      (fun data event =>
        let data := { data with events := data.events ++ [event] }
        let data :=
          match matchInitDuration event.message with
          | some d => { data with initDuration := some d }
          | none => data
        match matchReport event.message with
        | some r =>
          { data with
              totalDuration := some r.totalDuration
              billedDuration := some r.billedDuration
              memoryAllocated := some r.memoryAllocated
              memoryUsed := some r.memoryUsed }
        | none => data)
      start)

/-- Source `getColdStartEvents`: page loop over `FilterLogEvents` responses;
a rejected fetch is caught inside the loop (`break`), so an immediate failure
yields the empty list.  The model covers one page of results plus that error
path.  Events whose extraction returns `null` are silently dropped. -/
def getColdStartEvents (matchInitDuration : String → Option ℚ)
    (matchReport : String → Option ReportMatch)
    (relatedEvents : LogEvent → List LogEvent)
    (fetched : Except TelemetryError (List LogEvent)) : List ColdStartData :=
  match fetched with
  | .error _ => []
  | .ok events =>
    events.filterMap (extractColdStartData matchInitDuration matchReport relatedEvents)

/-- Source `getAllInvocations`: its own `try/catch` returns `[]` on a rejected
fetch. -/
def getAllInvocations (fetched : Except TelemetryError (List LogEvent)) : List LogEvent :=
  match fetched with
  | .error _ => []
  | .ok events => events

/-- Source `trackColdStarts` (minus the wall-clock `timeline` field; see
`TrackResult`).  Every telemetry rejection is already caught inside
`getColdStartEvents` / `getRelatedEvents` / `getAllInvocations`, and the rest
of the `try` body is total, so the top-level `catch` (which would return
`getEmptyResult`) is dead code for telemetry failures; accordingly the model
is exactly the `try` body. -/
def trackColdStarts (hourOf : ℕ → ℕ) (matchInitDuration : String → Option ℚ)
    (matchReport : String → Option ReportMatch)
    (relatedEvents : LogEvent → List LogEvent)
    (coldFetch invFetch : Except TelemetryError (List LogEvent))
    (timeRange : String) : TrackResult :=
  let coldStartEvents := getColdStartEvents matchInitDuration matchReport relatedEvents coldFetch
  let allInvocations := getAllInvocations invFetch
  let analysis := analyzeColdStartPatterns hourOf coldStartEvents allInvocations timeRange
  { total := coldStartEvents.length
    rate := calculateColdStartRate coldStartEvents.length allInvocations.length
    avgDuration := analysis.avgDuration
    maxDuration := analysis.maxDuration
    minDuration := analysis.minDuration
    peakHours := analysis.peakHours
    frequency := analysis.frequency
    triggers := analysis.triggers
    recommendations := generateRecommendations analysis
    patterns := analysis.patterns
    statistics := analysis.statistics }

end ColdStartTracker


/-!
Specification-side definitions.  Each of the following is written from the
words of a claim (or of its minimal amendment), independently of the source
translation above, so that theorems can compare the two.
-/

/-- Claim C1's index formula: `ceil(p/100 * n) - 1`, clamped to `[0, n-1]`
(nearest-rank method). -/
def specNearestRankIndex (p n : ℕ) : ℕ :=
  min (n - 1) (max 0 (⌈(p : ℚ) / 100 * n⌉ - 1)).toNat

/-- Claim C3's threshold table, applied to a rate expressed in percent. -/
def specClassifyRate (r : ℚ) : String :=
  if r > 50 then "Very High (>50%)"
  else if r > 25 then "High (25-50%)"
  else if r > 10 then "Moderate (10-25%)"
  else if r > 5 then "Low (5-10%)"
  else "Very Low (<5%)"

/-- Amended claim C3's rate: `c / t × 100`, rounded (half up) to two decimal
places, and `0` when `t = 0`. -/
def specRoundedRate (c t : ℕ) : ℚ :=
  if t = 0 then 0 else (⌊(c : ℚ) / t * 10000 + 1 / 2⌋ : ℚ) / 100

/-- Ascending numeric sort (the order the spec's words refer to). -/
def sortedNumeric (l : List ℕ) : List ℕ := List.insertionSort (· ≤ ·) l

/-- Claim C5's count: how many timestamps of an ascending list are followed by
a successor strictly less than 60 seconds later. -/
def specCloseSuccessorCount : List ℕ → ℕ
  | a :: b :: rest => (if b < a + 60000 then 1 else 0) + specCloseSuccessorCount (b :: rest)
  | _ => 0


theorem jsDigitsGo_fuel_irrel :
    ∀ n fuel fuel', n ≤ fuel → n ≤ fuel' → jsDigitsGo fuel n = jsDigitsGo fuel' n := by
  intro n
  induction n using Nat.strong_induction_on with
  | _ n ih =>
    intro fuel fuel' hf hf'
    match fuel, fuel' with
    | 0, 0 => rfl
    | 0, f' + 1 =>
      interval_cases n
      simp [jsDigitsGo]
    | f + 1, 0 =>
      interval_cases n
      simp [jsDigitsGo]
    | f + 1, f' + 1 =>
      simp only [jsDigitsGo]
      by_cases h10 : n < 10
      · simp [h10]
      · simp only [h10, if_false]
        have hlt : n / 10 < n := Nat.div_lt_self (by omega) (by omega)
        rw [ih (n / 10) hlt f f' (by omega) (by omega)]

theorem jsDigits_lt (h : n < 10) : jsDigits n = [n] := by
  unfold jsDigits
  match n, h with
  | 0, _ => rfl
  | n + 1, h => simp [jsDigitsGo, h]

theorem jsDigits_ge (h : 10 ≤ n) : jsDigits n = jsDigits (n / 10) ++ [n % 10] := by
  unfold jsDigits
  match n, h with
  | n + 1, h =>
    simp only [jsDigitsGo, Nat.not_lt.mpr h, if_false]
    congr 1
    exact jsDigitsGo_fuel_irrel ((n + 1) / 10) n ((n + 1) / 10)
      (by omega) le_rfl

theorem digitsVal_append_singleton (xs : List ℕ) (x : ℕ) :
    digitsVal (xs ++ [x]) = 10 * digitsVal xs + x := by
  induction xs with
  | nil => simp [digitsVal]
  | cons d ds ih =>
    simp only [List.cons_append, digitsVal, List.append_eq, ih]
    have hl : (ds ++ [x]).length = ds.length + 1 := by simp
    rw [hl]
    ring

theorem digitsVal_jsDigits (n : ℕ) : digitsVal (jsDigits n) = n := by
  induction n using Nat.strong_induction_on with
  | _ n ih =>
    by_cases h : n < 10
    · simp [jsDigits_lt h, digitsVal]
    · rw [jsDigits_ge (by omega), digitsVal_append_singleton,
        ih (n / 10) (Nat.div_lt_self (by omega) (by omega))]
      omega

theorem jsDigits_mem_lt (n : ℕ) : ∀ d ∈ jsDigits n, d < 10 := by
  induction n using Nat.strong_induction_on with
  | _ n ih =>
    by_cases h : n < 10
    · simp [jsDigits_lt h]
      omega
    · rw [jsDigits_ge (by omega)]
      intro d hd
      rcases List.mem_append.mp hd with h1 | h1
      · exact ih (n / 10) (Nat.div_lt_self (by omega) (by omega)) d h1
      · simp at h1
        omega

theorem digitsVal_lt_pow (ds : List ℕ) (h : ∀ d ∈ ds, d < 10) :
    digitsVal ds < 10 ^ ds.length := by
  induction ds with
  | nil => simp [digitsVal]
  | cons d t ih =>
    have hd : d < 10 := h d (by simp)
    have ht := ih (fun x hx => h x (by simp [hx]))
    simp only [digitsVal, List.length_cons, pow_succ]
    nlinarith

theorem digitsLe_iff_of_length_eq :
    ∀ ds es : List ℕ, ds.length = es.length → (∀ d ∈ ds, d < 10) → (∀ e ∈ es, e < 10) →
      (digitsLe ds es = true ↔ digitsVal ds ≤ digitsVal es) := by
  intro ds
  induction ds with
  | nil =>
    intro es hlen _ _
    simp only [List.length_nil] at hlen
    rw [List.eq_nil_of_length_eq_zero hlen.symm]
    simp [digitsLe]
  | cons a as ih =>
    intro es hlen hd he
    match es with
    | [] => simp at hlen
    | b :: bs =>
      simp only [List.length_cons, Nat.succ_inj] at hlen
      have hva := digitsVal_lt_pow as (fun x hx => hd x (by simp [hx]))
      have hvb := digitsVal_lt_pow bs (fun x hx => he x (by simp [hx]))
      rw [hlen] at hva
      simp only [digitsLe, digitsVal, hlen]
      have hpow : 0 < 10 ^ bs.length := pow_pos (by norm_num) bs.length
      by_cases hab : a < b
      · simp only [hab, if_true, true_iff]
        have h1 : a + 1 ≤ b := hab
        have h2 : a * 10 ^ bs.length + digitsVal as < (a + 1) * 10 ^ bs.length := by nlinarith
        have h3 : (a + 1) * 10 ^ bs.length ≤ b * 10 ^ bs.length :=
          Nat.mul_le_mul_right _ h1
        omega
      · by_cases hba : b < a
        · simp only [hab, if_false, hba, if_true, Bool.false_eq_true, false_iff, not_le]
          have h1 : b + 1 ≤ a := hba
          have h2 : b * 10 ^ bs.length + digitsVal bs < (b + 1) * 10 ^ bs.length := by nlinarith
          have h3 : (b + 1) * 10 ^ bs.length ≤ a * 10 ^ bs.length :=
            Nat.mul_le_mul_right _ h1
          omega
        · have hab' : a = b := by omega
          subst hab'
          simp only [lt_irrefl, if_false]
          rw [ih bs hlen (fun x hx => hd x (by simp [hx])) (fun x hx => he x (by simp [hx]))]
          omega

theorem jsNumStrLe_iff_le (a b : ℕ) (h : (jsDigits a).length = (jsDigits b).length) :
    (jsNumStrLe a b = true ↔ a ≤ b) := by
  unfold jsNumStrLe
  rw [digitsLe_iff_of_length_eq (jsDigits a) (jsDigits b) h (jsDigits_mem_lt a)
    (jsDigits_mem_lt b), digitsVal_jsDigits, digitsVal_jsDigits]


/-- Claim C2 counterexample: the claim says an unrecognized time-range token is
rejected and the error surfaced; instead both `parseTimeRange` implementations
silently substitute the default 24h range (86400000 ms), indistinguishable from
an explicit `"24h"` argument, and analysis proceeds. -/
theorem claim2_counterexample :
    ColdStartTracker.parseTimeRange "yesterday" = 86400000 ∧
    ColdStartTracker.parseTimeRange "yesterday" = ColdStartTracker.parseTimeRange "24h" ∧
    LambdaAnalyzer.parseTimeRange "yesterday" = 86400000 := by
  refine ⟨?_, ?_, ?_⟩ <;> decide

/-- Claim C2 (amended): a time-range argument that is not a recognized range
token is not rejected; `parseTimeRange` (both the tracker's and the analyzer's)
silently substitutes the default 24h range and no error reaches the caller. -/
theorem claim2_default_substituted :
    (∀ s : String, s ∉ (["1h", "6h", "24h", "7d"] : List String) →
      ColdStartTracker.parseTimeRange s = 86400000) ∧
    (∀ s : String, s ∉ (["1h", "6h", "24h", "7d", "30d"] : List String) →
      LambdaAnalyzer.parseTimeRange s = 86400000) := by
  constructor <;> intro s hs <;> simp only [List.mem_cons, List.mem_singleton,
    not_or, List.not_mem_nil] at hs
  · obtain ⟨h1, h2, h3, h4, _⟩ := hs
    simp [ColdStartTracker.parseTimeRange, h1, h2, h3, h4]
  · obtain ⟨h1, h2, h3, h4, h5, _⟩ := hs
    simp [LambdaAnalyzer.parseTimeRange, h1, h2, h3, h4, h5]

/-- Witness for claim C2's theorem at the concrete unrecognized token
`"90m"`. -/
theorem claim2_witness :
    ("90m" ∉ (["1h", "6h", "24h", "7d"] : List String) ∧
      ColdStartTracker.parseTimeRange "90m" = 86400000) ∧
    ("90m" ∉ (["1h", "6h", "24h", "7d", "30d"] : List String) ∧
      LambdaAnalyzer.parseTimeRange "90m" = 86400000) :=
  ⟨⟨by decide, claim2_default_substituted.1 "90m" (by decide)⟩,
   ⟨by decide, claim2_default_substituted.2 "90m" (by decide)⟩⟩

/-- Claim C4 counterexample: with 5 cold starts against 1 invocation (the two
counts come from different log filters, so nothing forces `c ≤ t`) the computed
rate is 500, outside `[0, 100]`. -/
theorem claim4_counterexample :
    ColdStartTracker.calculateColdStartRate 5 1 = 500 ∧
    ¬ ColdStartTracker.calculateColdStartRate 5 1 ≤ 100 := by
  constructor <;> norm_num [ColdStartTracker.calculateColdStartRate, jsRound]

/-- Claim C4 (amended): for every cold-start count `c` that does not exceed the
total invocation count `t`, the computed cold-start rate lies in `[0, 100]`,
and it equals `0` when `t = 0` (the division is guarded). -/
theorem claim4_rate_bounds (c t : ℕ) (h : c ≤ t) :
    0 ≤ ColdStartTracker.calculateColdStartRate c t ∧
    ColdStartTracker.calculateColdStartRate c t ≤ 100 ∧
    (t = 0 → ColdStartTracker.calculateColdStartRate c t = 0) := by
  unfold ColdStartTracker.calculateColdStartRate
  by_cases ht : t = 0
  · simp [ht]
  · simp only [ht, if_false]
    have htq : (0 : ℚ) < t := by positivity
    have h1 : (c : ℚ) / t ≤ 1 := by
      rw [div_le_one htq]
      exact_mod_cast h
    have hq0 : (0 : ℚ) ≤ (c : ℚ) / t * 100 * 100 := by positivity
    have hq1 : (c : ℚ) / t * 100 * 100 ≤ 10000 := by nlinarith
    have hr0 : (0 : ℤ) ≤ jsRound ((c : ℚ) / t * 100 * 100) := by
      unfold jsRound
      exact Int.floor_nonneg.mpr (by linarith)
    have hr1 : jsRound ((c : ℚ) / t * 100 * 100) ≤ 10000 := by
      unfold jsRound
      have hlt : ⌊(c : ℚ) / t * 100 * 100 + 1 / 2⌋ < (10001 : ℤ) :=
        Int.floor_lt.mpr (by push_cast; linarith)
      omega
    refine ⟨?_, ?_, fun h0' => h0'.elim⟩
    · apply div_nonneg _ (by norm_num)
      exact_mod_cast hr0
    · rw [div_le_iff₀ (by norm_num : (0 : ℚ) < 100)]
      have : ((jsRound ((c : ℚ) / t * 100 * 100) : ℤ) : ℚ) ≤ 10000 := by exact_mod_cast hr1
      linarith

/-- Witness for claim C4's theorem at `c = 1`, `t = 4` (rate 25). -/
theorem claim4_witness :
    1 ≤ 4 ∧
    (0 ≤ ColdStartTracker.calculateColdStartRate 1 4 ∧
      ColdStartTracker.calculateColdStartRate 1 4 ≤ 100 ∧
      (4 = 0 → ColdStartTracker.calculateColdStartRate 1 4 = 0)) :=
  ⟨by decide, claim4_rate_bounds 1 4 (by decide)⟩

theorem distribution_foldl_spec (durations : List ℚ) :
    ∀ acc : Distribution,
      durations.foldl
        (fun b duration =>
          if duration ≤ 500 then { b with b0to500 := b.b0to500 + 1 }
          else if duration ≤ 1000 then { b with b500to1000 := b.b500to1000 + 1 }
          else if duration ≤ 2000 then { b with b1000to2000 := b.b1000to2000 + 1 }
          else if duration ≤ 5000 then { b with b2000to5000 := b.b2000to5000 + 1 }
          else { b with b5000plus := b.b5000plus + 1 }) acc =
      { b0to500 := acc.b0to500 + durations.countP (fun d => decide (d ≤ 500))
        b500to1000 :=
          acc.b500to1000 + durations.countP (fun d => decide (500 < d) && decide (d ≤ 1000))
        b1000to2000 :=
          acc.b1000to2000 + durations.countP (fun d => decide (1000 < d) && decide (d ≤ 2000))
        b2000to5000 :=
          acc.b2000to5000 + durations.countP (fun d => decide (2000 < d) && decide (d ≤ 5000))
        b5000plus := acc.b5000plus + durations.countP (fun d => decide (5000 < d)) } := by
  induction durations with
  | nil => intro acc; simp
  | cons d rest ih =>
    intro acc
    simp only [List.foldl_cons, List.countP_cons]
    rcases le_or_lt d 500 with h1 | h1
    · have a1 : decide (d ≤ 500) = true := decide_eq_true h1
      have a2 : decide (500 < d) = false := decide_eq_false (not_lt.mpr h1)
      have a4 : decide (1000 < d) = false := decide_eq_false (by intro h; linarith)
      have a6 : decide (2000 < d) = false := decide_eq_false (by intro h; linarith)
      have a8 : decide (5000 < d) = false := decide_eq_false (by intro h; linarith)
      rw [if_pos h1, ih]
      simp only [a1, a2, a4, a6, a8, Bool.false_and, if_true, if_false,
        Bool.false_eq_true, Distribution.mk.injEq]
      omega
    · rcases le_or_lt d 1000 with h2 | h2
      · have a1 : decide (d ≤ 500) = false := decide_eq_false (not_le.mpr h1)
        have a2 : decide (500 < d) = true := decide_eq_true h1
        have a3 : decide (d ≤ 1000) = true := decide_eq_true h2
        have a4 : decide (1000 < d) = false := decide_eq_false (not_lt.mpr h2)
        have a6 : decide (2000 < d) = false := decide_eq_false (by intro h; linarith)
        have a8 : decide (5000 < d) = false := decide_eq_false (by intro h; linarith)
        rw [if_neg (not_le.mpr h1), if_pos h2, ih]
        simp only [a1, a2, a3, a4, a6, a8, Bool.false_and, Bool.true_and, if_true, if_false,
          Bool.false_eq_true, Distribution.mk.injEq]
        omega
      · rcases le_or_lt d 2000 with h3 | h3
        · have a1 : decide (d ≤ 500) = false := decide_eq_false (by intro h; linarith)
          have a2 : decide (500 < d) = true := decide_eq_true (by linarith)
          have a3 : decide (d ≤ 1000) = false := decide_eq_false (not_le.mpr h2)
          have a4 : decide (1000 < d) = true := decide_eq_true h2
          have a5 : decide (d ≤ 2000) = true := decide_eq_true h3
          have a6 : decide (2000 < d) = false := decide_eq_false (not_lt.mpr h3)
          have a8 : decide (5000 < d) = false := decide_eq_false (by intro h; linarith)
          rw [if_neg (by intro h; linarith), if_neg (not_le.mpr h2), if_pos h3, ih]
          simp only [a1, a2, a3, a4, a5, a6, a8, Bool.false_and, Bool.true_and, Bool.and_false,
            if_true, if_false, Bool.false_eq_true, Distribution.mk.injEq]
          omega
        · rcases le_or_lt d 5000 with h4 | h4
          · have a1 : decide (d ≤ 500) = false := decide_eq_false (by intro h; linarith)
            have a2 : decide (500 < d) = true := decide_eq_true (by linarith)
            have a3 : decide (d ≤ 1000) = false := decide_eq_false (by intro h; linarith)
            have a4 : decide (1000 < d) = true := decide_eq_true (by linarith)
            have a5 : decide (d ≤ 2000) = false := decide_eq_false (not_le.mpr h3)
            have a6 : decide (2000 < d) = true := decide_eq_true h3
            have a7 : decide (d ≤ 5000) = true := decide_eq_true h4
            have a8 : decide (5000 < d) = false := decide_eq_false (by intro h; linarith)
            rw [if_neg (by intro h; linarith), if_neg (by intro h; linarith),
              if_neg (not_le.mpr h3), if_pos h4, ih]
            simp only [a1, a2, a3, a4, a5, a6, a7, a8, Bool.false_and, Bool.true_and,
              Bool.and_false, Bool.and_true, if_true, if_false, Bool.false_eq_true,
              Distribution.mk.injEq]
            omega
          · have a1 : decide (d ≤ 500) = false := decide_eq_false (by intro h; linarith)
            have a3 : decide (d ≤ 1000) = false := decide_eq_false (by intro h; linarith)
            have a5 : decide (d ≤ 2000) = false := decide_eq_false (by intro h; linarith)
            have a7 : decide (d ≤ 5000) = false := decide_eq_false (not_le.mpr h4)
            have a8 : decide (5000 < d) = true := decide_eq_true h4
            rw [if_neg (by intro h; linarith), if_neg (by intro h; linarith),
              if_neg (by intro h; linarith), if_neg (not_le.mpr h4), ih]
            simp only [a1, a3, a5, a7, a8, Bool.and_false, if_true, if_false,
              Bool.false_eq_true, Distribution.mk.injEq]
            omega

theorem bucket_countP_sum (durations : List ℚ) :
    durations.countP (fun d => decide (d ≤ 500)) +
      durations.countP (fun d => decide (500 < d) && decide (d ≤ 1000)) +
      durations.countP (fun d => decide (1000 < d) && decide (d ≤ 2000)) +
      durations.countP (fun d => decide (2000 < d) && decide (d ≤ 5000)) +
      durations.countP (fun d => decide (5000 < d)) = durations.length := by
  induction durations with
  | nil => simp
  | cons d rest ih =>
    simp only [List.countP_cons, List.length_cons]
    rcases le_or_lt d 500 with h1 | h1
    · have a1 : decide (d ≤ 500) = true := decide_eq_true h1
      have a2 : decide (500 < d) = false := decide_eq_false (not_lt.mpr h1)
      have a4 : decide (1000 < d) = false := decide_eq_false (by intro h; linarith)
      have a6 : decide (2000 < d) = false := decide_eq_false (by intro h; linarith)
      have a8 : decide (5000 < d) = false := decide_eq_false (by intro h; linarith)
      simp only [a1, a2, a4, a6, a8, Bool.false_and, if_true, if_false, Bool.false_eq_true]
      omega
    · rcases le_or_lt d 1000 with h2 | h2
      · have a1 : decide (d ≤ 500) = false := decide_eq_false (not_le.mpr h1)
        have a2 : decide (500 < d) = true := decide_eq_true h1
        have a3 : decide (d ≤ 1000) = true := decide_eq_true h2
        have a4 : decide (1000 < d) = false := decide_eq_false (not_lt.mpr h2)
        have a6 : decide (2000 < d) = false := decide_eq_false (by intro h; linarith)
        have a8 : decide (5000 < d) = false := decide_eq_false (by intro h; linarith)
        simp only [a1, a2, a3, a4, a6, a8, Bool.false_and, Bool.true_and, if_true, if_false,
          Bool.false_eq_true]
        omega
      · rcases le_or_lt d 2000 with h3 | h3
        · have a1 : decide (d ≤ 500) = false := decide_eq_false (by intro h; linarith)
          have a3 : decide (d ≤ 1000) = false := decide_eq_false (not_le.mpr h2)
          have a4 : decide (1000 < d) = true := decide_eq_true h2
          have a5 : decide (d ≤ 2000) = true := decide_eq_true h3
          have a6 : decide (2000 < d) = false := decide_eq_false (not_lt.mpr h3)
          have a8 : decide (5000 < d) = false := decide_eq_false (by intro h; linarith)
          simp only [a1, a3, a4, a5, a6, a8, Bool.false_and, Bool.true_and, Bool.and_false,
            if_true, if_false, Bool.false_eq_true]
          omega
        · rcases le_or_lt d 5000 with h4 | h4
          · have a1 : decide (d ≤ 500) = false := decide_eq_false (by intro h; linarith)
            have a3 : decide (d ≤ 1000) = false := decide_eq_false (by intro h; linarith)
            have a5 : decide (d ≤ 2000) = false := decide_eq_false (not_le.mpr h3)
            have a6 : decide (2000 < d) = true := decide_eq_true h3
            have a7 : decide (d ≤ 5000) = true := decide_eq_true h4
            have a8 : decide (5000 < d) = false := decide_eq_false (by intro h; linarith)
            simp only [a1, a3, a5, a6, a7, a8, Bool.false_and, Bool.true_and, Bool.and_false,
              Bool.and_true, if_true, if_false, Bool.false_eq_true]
            omega
          · have a1 : decide (d ≤ 500) = false := decide_eq_false (by intro h; linarith)
            have a3 : decide (d ≤ 1000) = false := decide_eq_false (by intro h; linarith)
            have a5 : decide (d ≤ 2000) = false := decide_eq_false (by intro h; linarith)
            have a7 : decide (d ≤ 5000) = false := decide_eq_false (not_le.mpr h4)
            have a8 : decide (5000 < d) = true := decide_eq_true h4
            simp only [a1, a3, a5, a7, a8, Bool.and_false, if_true, if_false,
              Bool.false_eq_true]
            omega

/-- Claim C6: every duration sample lands in exactly one of the five fixed
buckets — each bucket count equals the number of samples in its
inclusive-upper-bound range (so a sample equal to a boundary is counted by the
lower bucket and by no other bucket), and the five counts sum to the number of
input samples. -/
theorem claim6_distribution_buckets (durations : List ℚ) :
    (ColdStartTracker.createDurationDistribution durations).b0to500 =
      durations.countP (fun d => decide (d ≤ 500)) ∧
    (ColdStartTracker.createDurationDistribution durations).b500to1000 =
      durations.countP (fun d => decide (500 < d) && decide (d ≤ 1000)) ∧
    (ColdStartTracker.createDurationDistribution durations).b1000to2000 =
      durations.countP (fun d => decide (1000 < d) && decide (d ≤ 2000)) ∧
    (ColdStartTracker.createDurationDistribution durations).b2000to5000 =
      durations.countP (fun d => decide (2000 < d) && decide (d ≤ 5000)) ∧
    (ColdStartTracker.createDurationDistribution durations).b5000plus =
      durations.countP (fun d => decide (5000 < d)) ∧
    (ColdStartTracker.createDurationDistribution durations).b0to500 +
      (ColdStartTracker.createDurationDistribution durations).b500to1000 +
      (ColdStartTracker.createDurationDistribution durations).b1000to2000 +
      (ColdStartTracker.createDurationDistribution durations).b2000to5000 +
      (ColdStartTracker.createDurationDistribution durations).b5000plus =
      durations.length := by
  unfold ColdStartTracker.createDurationDistribution
  rw [distribution_foldl_spec]
  simp only [Nat.zero_add]
  exact ⟨trivial, trivial, trivial, trivial, trivial, bucket_countP_sum durations⟩

/-- Claim C9: an INIT_START log event whose message carries no
`RequestId: <identifier>` token yields no cold-start record
(`extractColdStartData` returns `null`), and the list of cold-start records —
from which the total, all duration statistics, and the pattern analysis are
computed — is unchanged if such events are removed from the input, so the
exclusion is silent (the functions are total; nothing is raised). -/
theorem claim9_missing_requestId_excluded (mid : String → Option ℚ)
    (mrep : String → Option ColdStartTracker.ReportMatch)
    (related : LogEvent → List LogEvent) (events : List LogEvent) :
    (∀ e : LogEvent, ColdStartTracker.extractRequestId e.message = none →
      ColdStartTracker.extractColdStartData mid mrep related e = none) ∧
    ColdStartTracker.getColdStartEvents mid mrep related (.ok events) =
      ColdStartTracker.getColdStartEvents mid mrep related
        (.ok (events.filter
          (fun e => (ColdStartTracker.extractRequestId e.message).isSome))) := by
  constructor
  · intro e h
    simp [ColdStartTracker.extractColdStartData, h]
  · simp only [ColdStartTracker.getColdStartEvents]
    induction events with
    | nil => rfl
    | cons e rest ih =>
      rw [List.filter_cons]
      cases hr : ColdStartTracker.extractRequestId e.message with
      | none =>
        have hnone : ColdStartTracker.extractColdStartData mid mrep related e = none := by
          simp [ColdStartTracker.extractColdStartData, hr]
        simp only [hr, Option.isSome_none, Bool.false_eq_true, if_false,
          List.filterMap_cons, hnone]
        exact ih
      | some rid =>
        have hsome : ColdStartTracker.extractColdStartData mid mrep related e ≠ none := by
          simp [ColdStartTracker.extractColdStartData, hr]
        cases hx : ColdStartTracker.extractColdStartData mid mrep related e with
        | none => exact absurd hx hsome
        | some d =>
          simp only [hr, Option.isSome_some, if_true, List.filterMap_cons, hx]
          rw [ih]

/-- Claim C10: with fewer than two invocation events the gap list is empty, the
JS average gap is `0 / 0 = NaN`, both idle-threshold comparisons are false, so
no idle-period trigger is reported and nothing fails; if additionally neither
the deployment nor the scaling check fires, the result is exactly the default
trigger list. -/
theorem claim10_short_invocations (coldStartEvents : List ColdStartData)
    (allInvocations : List LogEvent) (h : allInvocations.length < 2) :
    "Long idle periods (>15 minutes)" ∉
        ColdStartTracker.identifyTriggers coldStartEvents allInvocations ∧
    "Moderate idle periods (5-15 minutes)" ∉
        ColdStartTracker.identifyTriggers coldStartEvents allInvocations ∧
    (ColdStartTracker.checkDeploymentPattern coldStartEvents = false →
      ColdStartTracker.checkScalingPattern coldStartEvents = false →
      ColdStartTracker.identifyTriggers coldStartEvents allInvocations =
        ["Normal Lambda lifecycle"]) := by
  have hlen : (jsSortNums (allInvocations.map (fun inv => inv.timestamp))).length < 2 := by
    rw [jsSortNums, List.length_insertionSort, List.length_map]
    exact h
  have hgaps : ColdStartTracker.adjacentGaps
      (jsSortNums (allInvocations.map (fun inv => inv.timestamp))) = [] := by
    rcases hs : jsSortNums (allInvocations.map (fun inv => inv.timestamp)) with _ | ⟨a, _ | ⟨b, rest⟩⟩
    · rw [hs]
      rfl
    · rw [hs]
      rfl
    · rw [hs] at hlen
      simp only [List.length_cons] at hlen
      omega
  simp only [ColdStartTracker.identifyTriggers, hgaps, List.length_nil, if_pos rfl,
    ColdStartTracker.jsGtOpt, List.nil_append]
  cases hdep : ColdStartTracker.checkDeploymentPattern coldStartEvents <;>
    cases hscal : ColdStartTracker.checkScalingPattern coldStartEvents <;>
    simp only [Bool.false_eq_true, if_false, if_true, List.nil_append, List.append_nil,
      List.length_nil, List.length_cons, List.length_append, List.length_singleton] <;>
    refine ⟨?_, ?_, ?_⟩ <;>
    first
      | (intro h1 h2; rfl)
      | (intro h1 h2; simp_all)
      | decide

/-- Witness for claim C10's theorem: one single invocation event and no
cold-start events. -/
theorem claim10_witness :
    ([(⟨0, "", ""⟩ : LogEvent)] : List LogEvent).length < 2 ∧
    ("Long idle periods (>15 minutes)" ∉
        ColdStartTracker.identifyTriggers [] [⟨0, "", ""⟩] ∧
      "Moderate idle periods (5-15 minutes)" ∉
        ColdStartTracker.identifyTriggers [] [⟨0, "", ""⟩] ∧
      (ColdStartTracker.checkDeploymentPattern [] = false →
        ColdStartTracker.checkScalingPattern [] = false →
        ColdStartTracker.identifyTriggers [] [⟨0, "", ""⟩] =
          ["Normal Lambda lifecycle"])) :=
  ⟨by decide, claim10_short_invocations [] [⟨0, "", ""⟩] (by decide)⟩

/-- Claim C3 counterexample: (i) with 51 cold starts and 1019 invocations the
exact rate `51/1019 × 100 ≈ 5.005` exceeds 5, yet the code classifies
"Very Low" because it applies the thresholds to the rate rounded to two
decimals (5.00); (ii) with 3 cold starts and 0 total invocations the code
classifies "Very Low (<5%)", not a None/No-data value. -/
theorem claim3_counterexample :
    ColdStartTracker.determineColdStartFrequency
        (List.replicate 51 ⟨"r", 0, "", none, none, none, none, none, []⟩)
        (List.replicate 1019 ⟨0, "", ""⟩) "24h" = "Very Low (<5%)" ∧
    (51 : ℚ) / 1019 * 100 > 5 ∧
    ColdStartTracker.determineColdStartFrequency
        (List.replicate 3 ⟨"r", 0, "", none, none, none, none, none, []⟩) [] "24h" =
      "Very Low (<5%)" ∧
    "Very Low (<5%)" ≠ "No data" := by
  refine ⟨?_, by norm_num, ?_, by decide⟩
  · simp only [ColdStartTracker.determineColdStartFrequency, List.length_replicate]
    norm_num [ColdStartTracker.calculateColdStartRate, jsRound]
  · simp only [ColdStartTracker.determineColdStartFrequency, List.length_replicate,
      List.length_nil]
    norm_num [ColdStartTracker.calculateColdStartRate]

/-- Claim C3 (amended): the frequency classification applies the fixed
thresholds (>50 VeryHigh, >25 High, >10 Moderate, >5 Low, else VeryLow) to the
cold-start rate `c/t × 100` rounded half-up to two decimal places; when the
total invocation count is 0 that rate is 0, so the classification is VeryLow —
the None/No-data labels appear only in the empty-result and empty-analysis
paths, not here. -/
theorem claim3_frequency_classification (coldStartEvents : List ColdStartData)
    (allInvocations : List LogEvent) (timeRange : String) :
    ColdStartTracker.determineColdStartFrequency coldStartEvents allInvocations timeRange =
      specClassifyRate (specRoundedRate coldStartEvents.length allInvocations.length) ∧
    specRoundedRate coldStartEvents.length 0 = 0 := by
  have hrate : ∀ c t : ℕ, ColdStartTracker.calculateColdStartRate c t = specRoundedRate c t := by
    intro c t
    unfold ColdStartTracker.calculateColdStartRate specRoundedRate jsRound
    by_cases ht : t = 0
    · simp [ht]
    · simp only [ht, if_false]
      have harg : ((c : ℚ) / t) * 100 * 100 = (c : ℚ) / t * 10000 := by ring
      rw [harg]
  refine ⟨?_, by simp [specRoundedRate]⟩
  simp only [ColdStartTracker.determineColdStartFrequency, specClassifyRate, hrate]

/-- Claim C1 counterexample: for the single sample `0.5` the 50th percentile
returned by the statistics computation is `Math.round(0.5) = 1`, not the sample
at the nearest-rank index (which is `0.5`). -/
theorem claim1_counterexample :
    ((ColdStartTracker.generateStatistics
        [⟨"r", 0, "", some (1 / 2), none, none, none, none, []⟩]
        [(1 : ℚ) / 2]).percentiles.p50 : ℚ) ≠
      ([(1 : ℚ) / 2].getD (specNearestRankIndex 50 1) 0 : ℚ) ∧
    (ColdStartTracker.generateStatistics
        [⟨"r", 0, "", some (1 / 2), none, none, none, none, []⟩]
        [(1 : ℚ) / 2]).percentiles.p50 = 1 := by
  have hp : ColdStartTracker.calculatePercentile [(1 : ℚ) / 2] 50 = 1 := by
    simp only [ColdStartTracker.calculatePercentile, List.length_singleton, Nat.cast_one]
    have hc : ⌈((50 : ℕ) : ℚ) / 100 * 1⌉ = 1 := by
      rw [Int.ceil_eq_iff]
      norm_num
    rw [hc]
    norm_num [List.getD, jsRound]
  have hval : (ColdStartTracker.generateStatistics
      [⟨"r", 0, "", some (1 / 2), none, none, none, none, []⟩]
      [(1 : ℚ) / 2]).percentiles.p50 = 1 := by
    simp only [ColdStartTracker.generateStatistics, jsSortRat, List.insertionSort,
      List.length_singleton, if_false]
    simpa using hp
  refine ⟨?_, hval⟩
  rw [hval]
  simp only [specNearestRankIndex]
  norm_num

theorem calculatePercentile_eq_spec (d : List ℚ) (p : ℕ) (hp1 : 1 ≤ p) (hp2 : p ≤ 100)
    (hne : d ≠ []) :
    ColdStartTracker.calculatePercentile d p =
      jsRound (d.getD (specNearestRankIndex p d.length) 0) := by
  have hn : 1 ≤ d.length := List.length_pos.mpr hne
  have hceil1 : 1 ≤ ⌈(p : ℚ) / 100 * d.length⌉ := by
    have hpos : (0 : ℚ) < (p : ℚ) / 100 * d.length := by
      have hp : (0 : ℚ) < (p : ℚ) := by exact_mod_cast hp1
      have hl : (0 : ℚ) < (d.length : ℚ) := by exact_mod_cast hn
      positivity
    exact Int.ceil_pos.mpr hpos
  have hceiln : ⌈(p : ℚ) / 100 * d.length⌉ ≤ (d.length : ℤ) := by
    apply Int.ceil_le.mpr
    push_cast
    have hp : (p : ℚ) ≤ 100 := by exact_mod_cast hp2
    have hl : (0 : ℚ) ≤ (d.length : ℚ) := by positivity
    nlinarith
  have hmax : max 0 (⌈(p : ℚ) / 100 * d.length⌉ - 1) = ⌈(p : ℚ) / 100 * d.length⌉ - 1 :=
    max_eq_right (by omega)
  have hmin : min (d.length - 1) (⌈(p : ℚ) / 100 * d.length⌉ - 1).toNat =
      (⌈(p : ℚ) / 100 * d.length⌉ - 1).toNat := by
    apply min_eq_right
    omega
  simp only [ColdStartTracker.calculatePercentile, specNearestRankIndex, hmax, hmin]

/-- Claim C1 (amended): for every non-empty, ascending-sorted sample list and
each percentile p ∈ {50, 90, 95, 99}, the percentile value returned by the
statistics computation is the sample at index `ceil(p/100·n) − 1`, clamped to
`[0, n−1]`, *rounded half-up to the nearest integer* (`Math.round`). -/
theorem claim1_percentiles (events : List ColdStartData) (d : List ℚ) (hne : d ≠ [])
    (hsorted : List.Sorted (· ≤ ·) d) :
    (ColdStartTracker.generateStatistics events d).percentiles =
      { p50 := jsRound (d.getD (specNearestRankIndex 50 d.length) 0)
        p90 := jsRound (d.getD (specNearestRankIndex 90 d.length) 0)
        p95 := jsRound (d.getD (specNearestRankIndex 95 d.length) 0)
        p99 := jsRound (d.getD (specNearestRankIndex 99 d.length) 0) } := by
  have hsortid : jsSortRat d = d := by
    unfold jsSortRat
    exact @List.eq_of_perm_of_sorted ℚ (· ≤ ·) inferInstance _ _
      (List.perm_insertionSort (· ≤ ·) d) (List.sorted_insertionSort (· ≤ ·) d) hsorted
  have hlen0 : ¬ d.length = 0 := by
    simp [List.length_eq_zero, hne]
  simp only [ColdStartTracker.generateStatistics, hlen0, if_false, hsortid]
  rw [calculatePercentile_eq_spec d 50 (by norm_num) (by norm_num) hne,
    calculatePercentile_eq_spec d 90 (by norm_num) (by norm_num) hne,
    calculatePercentile_eq_spec d 95 (by norm_num) (by norm_num) hne,
    calculatePercentile_eq_spec d 99 (by norm_num) (by norm_num) hne]

/-- Witness for claim C1's theorem at the sorted sample list `[2, 3]`. -/
theorem claim1_witness :
    (([2, 3] : List ℚ) ≠ [] ∧ List.Sorted (· ≤ ·) ([2, 3] : List ℚ)) ∧
    (ColdStartTracker.generateStatistics [] [2, 3]).percentiles =
      { p50 := jsRound (([2, 3] : List ℚ).getD (specNearestRankIndex 50 2) 0)
        p90 := jsRound (([2, 3] : List ℚ).getD (specNearestRankIndex 90 2) 0)
        p95 := jsRound (([2, 3] : List ℚ).getD (specNearestRankIndex 95 2) 0)
        p99 := jsRound (([2, 3] : List ℚ).getD (specNearestRankIndex 99 2) 0) } :=
  ⟨⟨by simp, by norm_num [List.sorted_cons]⟩,
    claim1_percentiles [] [2, 3] (by simp) (by norm_num [List.sorted_cons])⟩

/-- Claim C8 counterexample: when both telemetry fetches fail, the failure is
absorbed inside the fetch helpers, and the tracking operation returns the
no-cold-starts result — frequency "No cold starts detected" and the two generic
recommendation strings — which differs from the defined empty result
(`getEmptyResult`, frequency "No data" with the single access-problem
recommendation) that the claim promises. -/
theorem claim8_counterexample :
    (ColdStartTracker.trackColdStarts (fun _ => 0) (fun _ => none) (fun _ => none)
        (fun _ => []) (.error .accessDenied) (.error .networkError) "24h").frequency =
      "No cold starts detected" ∧
    (ColdStartTracker.trackColdStarts (fun _ => 0) (fun _ => none) (fun _ => none)
        (fun _ => []) (.error .accessDenied) (.error .networkError) "24h").recommendations =
      ["Consider using ARM-based Graviton2 processors for better price-performance",
       "Ensure you're using the latest runtime version for optimal performance"] ∧
    ColdStartTracker.trackColdStarts (fun _ => 0) (fun _ => none) (fun _ => none)
        (fun _ => []) (.error .accessDenied) (.error .networkError) "24h" ≠
      ColdStartTracker.getEmptyResult := by
  refine ⟨rfl, rfl, fun h => ?_⟩
  have hf := congrArg TrackResult.frequency h
  simp only [ColdStartTracker.getEmptyResult] at hf
  exact absurd hf (by decide)

/-- Claim C8 (amended): when fetching telemetry fails, the failure is caught
locally inside `getColdStartEvents` / `getAllInvocations`, which return empty
event lists; `trackColdStarts` therefore does not propagate the failure but
returns a result with all counts and durations zero, zero statistics, frequency
"No cold starts detected" and the two generic recommendations.  The defined
empty result (frequency "No data", single access-problem recommendation) is
produced only by the top-level catch, which no telemetry failure reaches. -/
theorem claim8_fetch_failure_absorbed (hourOf : ℕ → ℕ) (mid : String → Option ℚ)
    (mrep : String → Option ColdStartTracker.ReportMatch)
    (related : LogEvent → List LogEvent) (e e' : TelemetryError) (timeRange : String) :
    ColdStartTracker.trackColdStarts hourOf mid mrep related (.error e) (.error e')
        timeRange =
      { total := 0
        rate := 0
        avgDuration := 0
        maxDuration := 0
        minDuration := 0
        peakHours := []
        frequency := "No cold starts detected"
        triggers := []
        recommendations :=
          ["Consider using ARM-based Graviton2 processors for better price-performance",
           "Ensure you're using the latest runtime version for optimal performance"]
        patterns := []
        statistics := ⟨0, ⟨0, 0, 0, 0⟩, none⟩ } := rfl

theorem jsRound_mono {a b : ℚ} (h : a ≤ b) : jsRound a ≤ jsRound b :=
  Int.floor_le_floor (by linarith)

theorem le_foldl_max (l : List ℚ) : ∀ init : ℚ, init ≤ l.foldl max init := by
  induction l with
  | nil => intro init; simp
  | cons x xs ih =>
    intro init
    simp only [List.foldl_cons]
    exact le_trans (le_max_left init x) (ih (max init x))

theorem mem_le_foldl_max (l : List ℚ) :
    ∀ init : ℚ, ∀ x ∈ l, x ≤ l.foldl max init := by
  induction l with
  | nil => intro init x hx; simp at hx
  | cons y ys ih =>
    intro init x hx
    simp only [List.foldl_cons]
    rcases List.mem_cons.mp hx with h | h
    · subst h
      exact le_trans (le_max_right init x) (le_foldl_max ys (max init x))
    · exact ih (max init y) x h

theorem le_jsMaxList {l : List ℚ} : ∀ x ∈ l, x ≤ ColdStartTracker.jsMaxList l := by
  intro x hx
  match l, hx with
  | y :: ys, hx =>
    simp only [ColdStartTracker.jsMaxList]
    rcases List.mem_cons.mp hx with h | h
    · subst h
      exact le_foldl_max ys x
    · exact mem_le_foldl_max ys y x h

theorem foldl_min_le (l : List ℚ) : ∀ init : ℚ, l.foldl min init ≤ init := by
  induction l with
  | nil => intro init; simp
  | cons x xs ih =>
    intro init
    simp only [List.foldl_cons]
    exact le_trans (ih (min init x)) (min_le_left init x)

theorem foldl_min_le_mem (l : List ℚ) :
    ∀ init : ℚ, ∀ x ∈ l, l.foldl min init ≤ x := by
  induction l with
  | nil => intro init x hx; simp at hx
  | cons y ys ih =>
    intro init x hx
    simp only [List.foldl_cons]
    rcases List.mem_cons.mp hx with h | h
    · subst h
      exact le_trans (foldl_min_le ys (min init x)) (min_le_right init x)
    · exact ih (min init y) x h

theorem jsMinList_le {l : List ℚ} : ∀ x ∈ l, ColdStartTracker.jsMinList l ≤ x := by
  intro x hx
  match l, hx with
  | y :: ys, hx =>
    simp only [ColdStartTracker.jsMinList]
    rcases List.mem_cons.mp hx with h | h
    · subst h
      exact foldl_min_le ys x
    · exact foldl_min_le_mem ys y x h

theorem avg_between_min_max (l : List ℚ) (hne : l ≠ []) :
    ColdStartTracker.jsMinList l ≤ l.sum / l.length ∧
      l.sum / l.length ≤ ColdStartTracker.jsMaxList l := by
  have hlen : (0 : ℚ) < l.length := by
    have := List.length_pos.mpr hne
    exact_mod_cast this
  constructor
  · rw [le_div_iff₀ hlen]
    have := List.card_nsmul_le_sum l (ColdStartTracker.jsMinList l) jsMinList_le
    rw [nsmul_eq_mul] at this
    linarith
  · rw [div_le_iff₀ hlen]
    have := List.sum_le_card_nsmul l (ColdStartTracker.jsMaxList l) le_jsMaxList
    rw [nsmul_eq_mul] at this
    linarith

/-- The clamped nearest-rank index used by `calculatePercentile`, as a natural
number. -/
theorem percentile_index_lt (n p : ℕ) (hn : 1 ≤ n) (hp2 : p ≤ 100) :
    (max 0 (⌈(p : ℚ) / 100 * n⌉ - 1)).toNat < n := by
  have hceiln : ⌈(p : ℚ) / 100 * n⌉ ≤ (n : ℤ) := by
    apply Int.ceil_le.mpr
    push_cast
    have hp : (p : ℚ) ≤ 100 := by exact_mod_cast hp2
    have hl : (0 : ℚ) ≤ (n : ℚ) := by positivity
    nlinarith
  omega

theorem percentile_index_mono (n p q : ℕ) (hpq : p ≤ q) :
    (max 0 (⌈(p : ℚ) / 100 * n⌉ - 1)).toNat ≤ (max 0 (⌈(q : ℚ) / 100 * n⌉ - 1)).toNat := by
  have hle : ⌈(p : ℚ) / 100 * n⌉ ≤ ⌈(q : ℚ) / 100 * n⌉ := by
    apply Int.ceil_le_ceil
    have hp : (p : ℚ) ≤ (q : ℚ) := by exact_mod_cast hpq
    have hl : (0 : ℚ) ≤ (n : ℚ) := by positivity
    nlinarith
  omega

theorem sorted_getD_mono {s : List ℚ} (hs : List.Sorted (· ≤ ·) s) {i j : ℕ}
    (hij : i ≤ j) (hj : j < s.length) : s.getD i 0 ≤ s.getD j 0 := by
  have hi : i < s.length := lt_of_le_of_lt hij hj
  rw [List.getD_eq_getElem s 0 hi, List.getD_eq_getElem s 0 hj]
  exact List.Sorted.rel_get_of_le hs hij

theorem calculatePercentile_mono (s : List ℚ) (hs : List.Sorted (· ≤ ·) s)
    (hne : s ≠ []) (p q : ℕ) (hpq : p ≤ q) (hq : q ≤ 100) :
    ColdStartTracker.calculatePercentile s p ≤ ColdStartTracker.calculatePercentile s q := by
  have hn : 1 ≤ s.length := List.length_pos.mpr hne
  simp only [ColdStartTracker.calculatePercentile]
  apply jsRound_mono
  exact sorted_getD_mono hs (percentile_index_mono s.length p q hpq)
    (percentile_index_lt s.length q hn hq)

/-- Claim C7: for a non-empty set of duration samples, the computed summary of
`analyzeColdStartPatterns` satisfies `p50 ≤ p90 ≤ p95 ≤ p99 ≤ maxDuration` and
`minDuration ≤ avgDuration ≤ maxDuration`, where all six quantities are the
summary's computed (`Math.round`ed) fields — the mean being the arithmetic
mean, and min/max the smallest and largest sample. -/
theorem claim7_summary_ordering (hourOf : ℕ → ℕ) (coldStartEvents : List ColdStartData)
    (allInvocations : List LogEvent) (timeRange : String)
    (hne : (coldStartEvents.map (fun event => event.initDuration)).filterMap id ≠ []) :
    ((ColdStartTracker.analyzeColdStartPatterns hourOf coldStartEvents allInvocations
          timeRange).statistics.percentiles.p50 ≤
        (ColdStartTracker.analyzeColdStartPatterns hourOf coldStartEvents allInvocations
          timeRange).statistics.percentiles.p90 ∧
      (ColdStartTracker.analyzeColdStartPatterns hourOf coldStartEvents allInvocations
          timeRange).statistics.percentiles.p90 ≤
        (ColdStartTracker.analyzeColdStartPatterns hourOf coldStartEvents allInvocations
          timeRange).statistics.percentiles.p95 ∧
      (ColdStartTracker.analyzeColdStartPatterns hourOf coldStartEvents allInvocations
          timeRange).statistics.percentiles.p95 ≤
        (ColdStartTracker.analyzeColdStartPatterns hourOf coldStartEvents allInvocations
          timeRange).statistics.percentiles.p99 ∧
      (ColdStartTracker.analyzeColdStartPatterns hourOf coldStartEvents allInvocations
          timeRange).statistics.percentiles.p99 ≤
        (ColdStartTracker.analyzeColdStartPatterns hourOf coldStartEvents allInvocations
          timeRange).maxDuration) ∧
    ((ColdStartTracker.analyzeColdStartPatterns hourOf coldStartEvents allInvocations
          timeRange).minDuration ≤
        (ColdStartTracker.analyzeColdStartPatterns hourOf coldStartEvents allInvocations
          timeRange).avgDuration ∧
      (ColdStartTracker.analyzeColdStartPatterns hourOf coldStartEvents allInvocations
          timeRange).avgDuration ≤
        (ColdStartTracker.analyzeColdStartPatterns hourOf coldStartEvents allInvocations
          timeRange).maxDuration) := by
  set durations := (coldStartEvents.map (fun event => event.initDuration)).filterMap id with hdur
  have hcse : ¬ coldStartEvents.length = 0 := by
    intro h0
    rw [List.length_eq_zero] at h0
    subst h0
    simp [hdur] at hne
  have hdlen : 0 < durations.length := List.length_pos.mpr hne
  have hdpos : durations.length > 0 := hdlen
  have hdne0 : ¬ durations.length = 0 := by omega
  set s := jsSortRat durations with hms
  have hperm : s.Perm durations := by
    rw [hms, jsSortRat]
    exact List.perm_insertionSort (· ≤ ·) durations
  have hsorted : List.Sorted (· ≤ ·) s := by
    rw [hms, jsSortRat]
    exact List.sorted_insertionSort (· ≤ ·) durations
  have hslen : s.length = durations.length := hperm.length_eq
  have hsne : s ≠ [] := by
    intro h0
    rw [h0] at hslen
    simp at hslen
    omega
  have hn1 : 1 ≤ s.length := List.length_pos.mpr hsne
  simp only [ColdStartTracker.analyzeColdStartPatterns, hcse, if_false, ← hdur,
    ColdStartTracker.generateStatistics, hdne0, hdpos, if_true, ← hms]
  refine ⟨⟨?_, ?_, ?_, ?_⟩, ?_, ?_⟩
  · exact calculatePercentile_mono s hsorted hsne 50 90 (by norm_num) (by norm_num)
  · exact calculatePercentile_mono s hsorted hsne 90 95 (by norm_num) (by norm_num)
  · exact calculatePercentile_mono s hsorted hsne 95 99 (by norm_num) (by norm_num)
  · simp only [ColdStartTracker.calculatePercentile]
    apply jsRound_mono
    have hidx : (max 0 (⌈((99 : ℕ) : ℚ) / 100 * (s.length : ℚ)⌉ - 1)).toNat < s.length :=
      percentile_index_lt s.length 99 hn1 (by norm_num)
    have hmem : s.getD (max 0 (⌈((99 : ℕ) : ℚ) / 100 * s.length⌉ - 1)).toNat 0 ∈ s := by
      rw [List.getD_eq_getElem s 0 hidx]
      exact List.getElem_mem hidx
    exact le_jsMaxList _ (hperm.mem_iff.mp hmem)
  · apply jsRound_mono
    exact (avg_between_min_max durations hne).1
  · apply jsRound_mono
    exact (avg_between_min_max durations hne).2

/-- Witness for claim C7's theorem: one cold start with init duration 3 ms. -/
theorem claim7_witness :
    ((([⟨"r", 500, "", some 3, none, none, none, none, []⟩] : List ColdStartData).map
        (fun event => event.initDuration)).filterMap id ≠ []) ∧
    (((ColdStartTracker.analyzeColdStartPatterns (fun _ => 0)
          [⟨"r", 500, "", some 3, none, none, none, none, []⟩] []
          "24h").statistics.percentiles.p50 ≤
        (ColdStartTracker.analyzeColdStartPatterns (fun _ => 0)
          [⟨"r", 500, "", some 3, none, none, none, none, []⟩] []
          "24h").statistics.percentiles.p90 ∧
      (ColdStartTracker.analyzeColdStartPatterns (fun _ => 0)
          [⟨"r", 500, "", some 3, none, none, none, none, []⟩] []
          "24h").statistics.percentiles.p90 ≤
        (ColdStartTracker.analyzeColdStartPatterns (fun _ => 0)
          [⟨"r", 500, "", some 3, none, none, none, none, []⟩] []
          "24h").statistics.percentiles.p95 ∧
      (ColdStartTracker.analyzeColdStartPatterns (fun _ => 0)
          [⟨"r", 500, "", some 3, none, none, none, none, []⟩] []
          "24h").statistics.percentiles.p95 ≤
        (ColdStartTracker.analyzeColdStartPatterns (fun _ => 0)
          [⟨"r", 500, "", some 3, none, none, none, none, []⟩] []
          "24h").statistics.percentiles.p99 ∧
      (ColdStartTracker.analyzeColdStartPatterns (fun _ => 0)
          [⟨"r", 500, "", some 3, none, none, none, none, []⟩] []
          "24h").statistics.percentiles.p99 ≤
        (ColdStartTracker.analyzeColdStartPatterns (fun _ => 0)
          [⟨"r", 500, "", some 3, none, none, none, none, []⟩] []
          "24h").maxDuration) ∧
    ((ColdStartTracker.analyzeColdStartPatterns (fun _ => 0)
          [⟨"r", 500, "", some 3, none, none, none, none, []⟩] []
          "24h").minDuration ≤
        (ColdStartTracker.analyzeColdStartPatterns (fun _ => 0)
          [⟨"r", 500, "", some 3, none, none, none, none, []⟩] []
          "24h").avgDuration ∧
      (ColdStartTracker.analyzeColdStartPatterns (fun _ => 0)
          [⟨"r", 500, "", some 3, none, none, none, none, []⟩] []
          "24h").avgDuration ≤
        (ColdStartTracker.analyzeColdStartPatterns (fun _ => 0)
          [⟨"r", 500, "", some 3, none, none, none, none, []⟩] []
          "24h").maxDuration)) :=
  ⟨by simp, claim7_summary_ordering (fun _ => 0)
    [⟨"r", 500, "", some 3, none, none, none, none, []⟩] [] "24h" (by simp)⟩

theorem orderedInsert_congr (R S : ℕ → ℕ → Prop) [DecidableRel R] [DecidableRel S]
    (a : ℕ) (l : List ℕ) (h : ∀ x ∈ a :: l, ∀ y ∈ a :: l, (R x y ↔ S x y)) :
    List.orderedInsert R a l = List.orderedInsert S a l := by
  induction l with
  | nil => rfl
  | cons b t ih =>
    simp only [List.orderedInsert]
    by_cases hR : R a b
    · rw [if_pos hR, if_pos ((h a (by simp) b (by simp)).mp hR)]
    · rw [if_neg hR, if_neg (fun hS => hR ((h a (by simp) b (by simp)).mpr hS))]
      rw [ih (fun x hx y hy => h x (by rcases List.mem_cons.mp hx with h' | h' <;> simp [h'])
        y (by rcases List.mem_cons.mp hy with h' | h' <;> simp [h']))]

theorem insertionSort_congr (R S : ℕ → ℕ → Prop) [DecidableRel R] [DecidableRel S]
    (l : List ℕ) (h : ∀ x ∈ l, ∀ y ∈ l, (R x y ↔ S x y)) :
    List.insertionSort R l = List.insertionSort S l := by
  induction l with
  | nil => rfl
  | cons a t ih =>
    simp only [List.insertionSort]
    rw [ih (fun x hx y hy => h x (by simp [hx]) y (by simp [hy]))]
    apply orderedInsert_congr
    intro x hx y hy
    have hmem : ∀ z, z ∈ a :: List.insertionSort S t → z ∈ a :: t := by
      intro z hz
      rcases List.mem_cons.mp hz with h' | h'
      · simp [h']
      · exact List.mem_cons.mpr (Or.inr ((List.perm_insertionSort S t).mem_iff.mp h'))
    exact h x (hmem x hx) y (hmem y hy)

/-- On timestamps of equal decimal length, JavaScript's string sort coincides
with the numeric ascending sort. -/
theorem jsSortNums_eq_sortedNumeric (l : List ℕ)
    (hlen : ∀ a ∈ l, ∀ b ∈ l, (jsDigits a).length = (jsDigits b).length) :
    jsSortNums l = sortedNumeric l := by
  unfold jsSortNums sortedNumeric
  apply insertionSort_congr
  intro x hx y hy
  exact jsNumStrLe_iff_le x y (hlen x hx y hy)

theorem countClusters_eq_spec :
    ∀ l : List ℕ, ColdStartTracker.countClusters l = specCloseSuccessorCount l := by
  intro l
  induction l with
  | nil => rfl
  | cons a t ih =>
    match t, ih with
    | [], _ => rfl
    | b :: r, ih =>
      simp only [ColdStartTracker.countClusters, specCloseSuccessorCount]
      rw [ih]
      congr 1
      rw [if_congr (by omega : ((b : ℤ) - (a : ℤ) < 60000) ↔ (b < a + 60000)) rfl rfl]

theorem checkDeploymentPattern_iff_spec (coldStartEvents : List ColdStartData)
    (h3 : 3 ≤ coldStartEvents.length)
    (hdig : ∀ a ∈ coldStartEvents.map (fun e => e.timestamp),
      ∀ b ∈ coldStartEvents.map (fun e => e.timestamp),
        (jsDigits a).length = (jsDigits b).length) :
    (ColdStartTracker.checkDeploymentPattern coldStartEvents = true ↔
      10 * specCloseSuccessorCount
          (sortedNumeric (coldStartEvents.map (fun e => e.timestamp))) >
        3 * coldStartEvents.length) := by
  have hunfold : ColdStartTracker.checkDeploymentPattern coldStartEvents =
      decide ((ColdStartTracker.countClusters
          (jsSortNums (List.map (fun e => e.timestamp) coldStartEvents)) : ℚ) >
        ((jsSortNums (List.map (fun e => e.timestamp) coldStartEvents)).length : ℚ) *
          (3 / 10)) := by
    unfold ColdStartTracker.checkDeploymentPattern
    rw [if_neg (by omega : ¬ coldStartEvents.length < 3)]
  rw [hunfold, jsSortNums_eq_sortedNumeric _ hdig, countClusters_eq_spec]
  rw [decide_eq_true_iff]
  have hlen : (sortedNumeric (coldStartEvents.map (fun e => e.timestamp))).length =
      coldStartEvents.length := by
    rw [sortedNumeric, List.length_insertionSort, List.length_map]
  rw [hlen]
  set c := specCloseSuccessorCount
    (sortedNumeric (coldStartEvents.map (fun e => e.timestamp)))
  set n := coldStartEvents.length
  constructor
  · intro h
    have h10 : (n : ℚ) * (3 / 10) * 10 < (c : ℚ) * 10 := by
      apply mul_lt_mul_of_pos_right h
      norm_num
    have : ((3 * n : ℕ) : ℚ) < ((10 * c : ℕ) : ℚ) := by push_cast; linarith
    exact_mod_cast this
  · intro h
    have : ((3 * n : ℕ) : ℚ) < ((10 * c : ℕ) : ℚ) := by exact_mod_cast h
    have h' : (3 : ℚ) * n < 10 * c := by push_cast at this; linarith
    show (n : ℚ) * (3 / 10) < (c : ℚ)
    linarith

theorem mem_identifyTriggers_deployment (coldStartEvents : List ColdStartData)
    (allInvocations : List LogEvent) :
    ("Function deployments/updates" ∈
        ColdStartTracker.identifyTriggers coldStartEvents allInvocations ↔
      ColdStartTracker.checkDeploymentPattern coldStartEvents = true) := by
  simp only [ColdStartTracker.identifyTriggers]
  cases h1 : ColdStartTracker.jsGtOpt
      (if (ColdStartTracker.adjacentGaps (jsSortNums
            (List.map (fun inv => inv.timestamp) allInvocations))).length = 0 then none
        else some (((ColdStartTracker.adjacentGaps (jsSortNums
            (List.map (fun inv => inv.timestamp) allInvocations))).sum : ℚ) /
          ((ColdStartTracker.adjacentGaps (jsSortNums
            (List.map (fun inv => inv.timestamp) allInvocations))).length : ℚ)))
      (15 * 60 * 1000) <;>
    cases h2 : ColdStartTracker.jsGtOpt
      (if (ColdStartTracker.adjacentGaps (jsSortNums
            (List.map (fun inv => inv.timestamp) allInvocations))).length = 0 then none
        else some (((ColdStartTracker.adjacentGaps (jsSortNums
            (List.map (fun inv => inv.timestamp) allInvocations))).sum : ℚ) /
          ((ColdStartTracker.adjacentGaps (jsSortNums
            (List.map (fun inv => inv.timestamp) allInvocations))).length : ℚ)))
      (5 * 60 * 1000) <;>
    cases h3 : ColdStartTracker.checkDeploymentPattern coldStartEvents <;>
    cases h4 : ColdStartTracker.checkScalingPattern coldStartEvents <;>
    simp [h1, h2, h3, h4]

/-- Claim C5 counterexample.  (i) Two cold starts 1 second apart: 50% of the
timestamps have a successor within 60 seconds (10·1 > 3·2), yet no trigger is
reported — the source returns `false` outright for fewer than 3 events.
(ii) Three cold starts at 0 ms, 70000 ms and 140000 ms: in ascending numeric
order no successor is within 60 seconds (both gaps are 70 s), yet the trigger
IS reported, because the source sorts with the default string sort, yielding
[0, 140000, 70000], whose second gap is negative and counts as a cluster. -/
theorem claim5_counterexample :
    (10 * specCloseSuccessorCount (sortedNumeric [0, 1000]) > 3 * 2 ∧
      "Function deployments/updates" ∉
        ColdStartTracker.identifyTriggers
          [⟨"a", 0, "", none, none, none, none, none, []⟩,
           ⟨"b", 1000, "", none, none, none, none, none, []⟩] []) ∧
    (¬ (10 * specCloseSuccessorCount (sortedNumeric [0, 70000, 140000]) > 3 * 3) ∧
      "Function deployments/updates" ∈
        ColdStartTracker.identifyTriggers
          [⟨"a", 0, "", none, none, none, none, none, []⟩,
           ⟨"b", 70000, "", none, none, none, none, none, []⟩,
           ⟨"c", 140000, "", none, none, none, none, none, []⟩] []) := by
  constructor
  · constructor
    · decide
    · rw [mem_identifyTriggers_deployment]
      intro hdep
      have : ColdStartTracker.checkDeploymentPattern
          [⟨"a", 0, "", none, none, none, none, none, []⟩,
           ⟨"b", 1000, "", none, none, none, none, none, []⟩] = false := rfl
      rw [this] at hdep
      exact absurd hdep (by decide)
  · constructor
    · decide
    · rw [mem_identifyTriggers_deployment]
      have hunfold : ColdStartTracker.checkDeploymentPattern
          [⟨"a", 0, "", none, none, none, none, none, []⟩,
           ⟨"b", 70000, "", none, none, none, none, none, []⟩,
           ⟨"c", 140000, "", none, none, none, none, none, []⟩] =
          decide ((ColdStartTracker.countClusters (jsSortNums [0, 70000, 140000]) : ℚ) >
            ((jsSortNums [0, 70000, 140000]).length : ℚ) * (3 / 10)) := by
        unfold ColdStartTracker.checkDeploymentPattern
        rw [if_neg (by decide)]
        rfl
      rw [hunfold, show jsSortNums [0, 70000, 140000] = [0, 140000, 70000] from by decide,
        show ColdStartTracker.countClusters [0, 140000, 70000] = 1 from by decide]
      rw [decide_eq_true_iff]
      norm_num

/-- Claim C5 (amended): for every list of at least 3 cold-start events whose
timestamps all have the same number of decimal digits (as real epoch-millisecond
timestamps do), the "Function deployments/updates" trigger is reported exactly
when strictly more than 30% of the cold-start timestamps, taken in ascending
order, have a successor strictly within 60 seconds of the preceding cold
start. -/
theorem claim5_deployment_trigger (coldStartEvents : List ColdStartData)
    (allInvocations : List LogEvent) (h3 : 3 ≤ coldStartEvents.length)
    (hdig : ∀ a ∈ coldStartEvents.map (fun e => e.timestamp),
      ∀ b ∈ coldStartEvents.map (fun e => e.timestamp),
        (jsDigits a).length = (jsDigits b).length) :
    ("Function deployments/updates" ∈
        ColdStartTracker.identifyTriggers coldStartEvents allInvocations ↔
      10 * specCloseSuccessorCount
          (sortedNumeric (coldStartEvents.map (fun e => e.timestamp))) >
        3 * coldStartEvents.length) := by
  rw [mem_identifyTriggers_deployment]
  exact checkDeploymentPattern_iff_spec coldStartEvents h3 hdig

/-- Witness for claim C5's theorem: three cold starts at 100000 ms, 100010 ms
and 200000 ms (all six-digit timestamps); two of three have a successor within
60 s... the first does (10 ms later), so 10·1 > 3·3 and the trigger is
reported. -/
theorem claim5_witness :
    (3 ≤ ([⟨"a", 100000, "", none, none, none, none, none, []⟩,
           ⟨"b", 100010, "", none, none, none, none, none, []⟩,
           ⟨"c", 200000, "", none, none, none, none, none, []⟩] :
        List ColdStartData).length ∧
      (∀ a ∈ ([⟨"a", 100000, "", none, none, none, none, none, []⟩,
           ⟨"b", 100010, "", none, none, none, none, none, []⟩,
           ⟨"c", 200000, "", none, none, none, none, none, []⟩] :
          List ColdStartData).map (fun e => e.timestamp),
        ∀ b ∈ ([⟨"a", 100000, "", none, none, none, none, none, []⟩,
           ⟨"b", 100010, "", none, none, none, none, none, []⟩,
           ⟨"c", 200000, "", none, none, none, none, none, []⟩] :
          List ColdStartData).map (fun e => e.timestamp),
          (jsDigits a).length = (jsDigits b).length)) ∧
    ("Function deployments/updates" ∈
        ColdStartTracker.identifyTriggers
          [⟨"a", 100000, "", none, none, none, none, none, []⟩,
           ⟨"b", 100010, "", none, none, none, none, none, []⟩,
           ⟨"c", 200000, "", none, none, none, none, none, []⟩] [] ↔
      10 * specCloseSuccessorCount
          (sortedNumeric (([⟨"a", 100000, "", none, none, none, none, none, []⟩,
           ⟨"b", 100010, "", none, none, none, none, none, []⟩,
           ⟨"c", 200000, "", none, none, none, none, none, []⟩] :
          List ColdStartData).map (fun e => e.timestamp))) >
        3 * ([⟨"a", 100000, "", none, none, none, none, none, []⟩,
           ⟨"b", 100010, "", none, none, none, none, none, []⟩,
           ⟨"c", 200000, "", none, none, none, none, none, []⟩] :
          List ColdStartData).length) :=
  ⟨⟨by decide, by decide⟩,
    claim5_deployment_trigger
      [⟨"a", 100000, "", none, none, none, none, none, []⟩,
       ⟨"b", 100010, "", none, none, none, none, none, []⟩,
       ⟨"c", 200000, "", none, none, none, none, none, []⟩] []
      (by decide) (by decide)⟩
